import Mathlib

/-!
Shallow embedding of `apps/bridge/scripts/generate_avatar.py`.

The script drives an external scene engine (`bpy`) through a fixed pipeline:
parse CLI / JSON parameters, clear the scene, synthesize a material, build a
primitive with modifiers, apply a transform, add a three-light rig, a camera,
a particle environment, set render configuration, and persist the scene.

We model the engine's scene state (`BState`) descriptively: objects with
kind, location, rotation, scale, modifier stack, attached materials and
light data; the global material datablock list; the "active object" pointer;
the scene camera pointer; render settings.  Angles produced by
`math.radians` are represented by their degree measure (the conversion is a
fixed injective map, and no claim inspects the radian value itself), via the
`Angle` wrapper.  Numeric values are `Rat` (the script only ever uses exact
decimal constants).  Python exceptions reachable from the modelled code
(`KeyError` on a missing dict field, `AttributeError` on `None`) are an
explicit `PyError`; `json.JSONDecodeError` is the `JsonInput.malformed`
case of the payload.
-/

/-- A 3-vector of exact numbers (locations, scales, RGB colors). -/
abbrev Vec3 := Rat × Rat × Rat

/-- A 4-component RGBA color. -/
abbrev Color4 := Rat × Rat × Rat × Rat

/-- An Euler angle, represented by its degree measure.  `math.radians d`
is modelled as `Angle.mk d`: the conversion to radians is deterministic and
injective, and no claim depends on the radian magnitude. -/
structure Angle where
  degrees : Rat
deriving DecidableEq

/-- `math.radians`: degrees to the engine's native angular unit. -/
def radians (d : Rat) : Angle := ⟨d⟩

/-- The wireframe modifier thickness `0.02` (line 62), as the reduced
fraction 1/50 (see `wireframeThickness_eq`). -/
def wireframeThickness : Rat := ⟨1, 50, by decide, by decide⟩

/-- The particle prototype ico-sphere radius `0.1` (line 107), as the
reduced fraction 1/10 (see `protoRadius_eq`). -/
def protoRadius : Rat := ⟨1, 10, by decide, by decide⟩

/-- The fill light's green channel `0.5` (line 79), as the reduced
fraction 1/2 (see `fillGreen_eq`). -/
def fillGreen : Rat := ⟨1, 2, by decide, by decide⟩

/-- The inputs of the principled BSDF shader node that the script can set.
`none` means the script left the engine default untouched. -/
structure PrincipledInputs where
  baseColor : Color4
  roughness : Rat
  metallic : Option Rat
  transmission : Option Rat
  emission : Option Color4
  emissionStrength : Option Rat
deriving DecidableEq

/-- The node graph of a material created by the script: either a principled
shader wired to the output (avatar material) or a bare emission shader wired
to the output (particle material). -/
inductive ShaderGraph where
  | principled (inputs : PrincipledInputs)
  | emission (color : Color4) (strength : Rat)
deriving DecidableEq

/-- A material datablock (`bpy.data.materials`). -/
structure Material where
  name : String
  graph : ShaderGraph
deriving DecidableEq

/-- Particle-system settings the script assigns (lines 100-104, 123-124). -/
structure ParticleSettings where
  count : Nat
  frame_start : Int
  frame_end : Int
  lifetime : Nat
  physics_type : String
  render_type : Option String
  instance_object : Option Nat
deriving DecidableEq

/-- A modifier on an object's modifier stack. -/
inductive Modifier where
  | subsurf (name : String) (levels : Nat)
  | wireframe (name : String) (thickness : Rat)
  | particleSystem (name : String) (settings : ParticleSettings)
deriving DecidableEq

/-- The kind of object a `bpy.ops` creation operator produced.  Parameters
the script passes explicitly are recorded; `none` means the engine default
was used (e.g. the particle prototype's ico sphere gets the default
subdivision count, the avatar ico sphere the default radius). -/
inductive ObjKind where
  | icoSphere (subdivisions : Option Nat) (radius : Option Rat)
  | torus
  | cube
  | uvSphere
  | plane (size : Rat)
  | lightArea
  | lightPoint
  | lightSpot
  | camera
deriving DecidableEq

/-- A scene object, with the fields the script reads or writes. -/
structure Obj where
  kind : ObjKind
  location : Vec3
  rotation_euler : Angle × Angle × Angle
  scale : Vec3
  modifiers : List Modifier
  materials : List Material
  hide_render : Bool
  energy : Option Rat
  lightColor : Option Vec3
deriving DecidableEq

/-- Scene render settings the script assigns (lines 166-171); `none` is an
untouched engine default. -/
structure RenderSettings where
  engine : Option String
  cyclesSamples : Option Nat
  resolution_x : Option Nat
  resolution_y : Option Nat
  film_transparent : Option Bool
deriving DecidableEq

/-- The engine scene state: objects in creation order, the global material
datablock list, the active-object pointer (an index into `objects`), the
scene camera pointer, and render settings. -/
structure BState where
  objects : List Obj
  materialsData : List Material
  active : Option Nat
  sceneCamera : Option Nat
  render : RenderSettings
deriving DecidableEq

/-- Render settings with every field at its untouched engine default. -/
def defaultRender : RenderSettings :=
  { engine := none, cyclesSamples := none, resolution_x := none,
    resolution_y := none, film_transparent := none }

/-- A freshly started engine with an empty scene. -/
def freshState : BState :=
  { objects := [], materialsData := [], active := none, sceneCamera := none,
    render := defaultRender }

/-- A new object as a creation operator leaves it: at the given location,
unrotated, unit scale, no modifiers, no materials, visible. -/
def mkObj (k : ObjKind) (loc : Vec3) : Obj :=
  { kind := k, location := loc, rotation_euler := (⟨0⟩, ⟨0⟩, ⟨0⟩),
    scale := (1, 1, 1), modifiers := [], materials := [],
    hide_render := false, energy := none, lightColor := none }

/-- Replace the element at index `i` by `f` of it (out of range: no-op). -/
def listModify (i : Nat) (f : α → α) : List α → List α
  | [] => []
  | a :: as =>
    match i with
    | 0 => f a :: as
    | n + 1 => a :: listModify n f as

/-- Append a new object to the scene and make it the active object,
returning its index (the engine's "active object after creation" state). -/
def addObj (o : Obj) (s : BState) : Nat × BState :=
  (s.objects.length,
   { s with objects := s.objects ++ [o], active := some s.objects.length })

/-- Mutate the object at index `i`. -/
def modifyObj (i : Nat) (f : Obj → Obj) (s : BState) : BState :=
  { s with objects := listModify i f s.objects }

/-- Mutate the active object (`bpy.context.object`), when one exists. -/
def modifyActive (f : Obj → Obj) (s : BState) : BState :=
  match s.active with
  | some i => modifyObj i f s
  | none => s

/-- Python exceptions reachable from the modelled code. -/
inductive PyError where
  | keyError (key : String)
  | attributeErrorNone (attr : String)
deriving DecidableEq

/-- `MaterialSpec`: the `material` sub-record of the JSON parameters. -/
structure MaterialSpec where
  color : Color4
  roughness : Rat
  type : String
deriving DecidableEq

/-- `GeometrySpec`: the `geometry` sub-record of the JSON parameters. -/
structure GeometrySpec where
  type : String
  subdivisions : Nat
  wireframe : Bool
deriving DecidableEq

/-- `TransformSpec`: the `transform` sub-record of the JSON parameters. -/
structure TransformSpec where
  rotation : Rat × Rat × Rat
  scale : Rat
deriving DecidableEq

/-- `EnvironmentSpec`: the `environment` sub-record of the JSON parameters. -/
structure EnvironmentSpec where
  particleCount : Nat
  particleColor : Vec3
deriving DecidableEq

/-- The parsed top-level JSON document.  Each sub-record is optional:
`none` models a missing dictionary key, whose access raises `KeyError`. -/
structure AvatarParams where
  material : Option MaterialSpec
  geometry : Option GeometrySpec
  transform : Option TransformSpec
  environment : Option EnvironmentSpec
deriving DecidableEq

/-- `clean_scene` (lines 8-10): select all objects and delete them.  Every
object is removed, so the active-object and scene-camera pointers dangle to
`None`; material datablocks are not objects and survive. -/
def clean_scene (s : BState) : BState :=
  { s with objects := [], active := none, sceneCamera := none }

/-- The material value `create_material` builds (lines 13-40): a principled
shader wired to the output node, base color and roughness from the
parameters, then the `type` branch: `metallic` sets the metallic factor to
1.0; `glass` sets transmission to 1.0 and overwrites roughness with 0.0;
`emissive` sets the emission color to the base color and emission strength
to 5.0; any other value leaves the extra inputs untouched. -/
def buildAvatarMaterial (params : MaterialSpec) : Material :=
  let inputs : PrincipledInputs :=
    { baseColor := params.color, roughness := params.roughness,
      metallic := none, transmission := none, emission := none,
      emissionStrength := none }
  let inputs :=
    if params.type = "metallic" then
      { inputs with metallic := some 1 }
    else if params.type = "glass" then
      { inputs with transmission := some 1, roughness := 0 }
    else if params.type = "emissive" then
      { inputs with emission := some params.color, emissionStrength := some 5 }
    else inputs
  { name := "AvatarMaterial", graph := ShaderGraph.principled inputs }

/-- `create_material` (lines 12-40): `bpy.data.materials.new` registers the
new datablock globally; the node setup and input assignments produce
`buildAvatarMaterial params`; the material is returned. -/
def create_material (params : MaterialSpec) (s : BState) : Material × BState :=
  let mat := buildAvatarMaterial params
  (mat, { s with materialsData := s.materialsData ++ [mat] })

/-- Lines 60-62 of `create_geometry`: if `wireframe` is set, append a
wireframe modifier of thickness 0.02 to `obj` --- but `obj` is
`bpy.context.active_object`, which is `None` when no primitive branch
matched, and `None.modifiers` raises `AttributeError`. -/
def wireframeStep (wf : Bool) (obj : Option Nat) (s : BState) :
    Except PyError BState :=
  if wf then
    match obj with
    | none => Except.error (PyError.attributeErrorNone "modifiers")
    | some i =>
      Except.ok (modifyObj i
        (fun o =>
          { o with modifiers :=
              o.modifiers ++ [Modifier.wireframe "Wireframe" wireframeThickness] }) s)
  else Except.ok s

/-- Lines 64-65 of `create_geometry`: attach the material when an object
was created. -/
def attachMaterial (obj : Option Nat) (material : Material) (s : BState) :
    BState :=
  match obj with
  | some i =>
    modifyObj i (fun o => { o with materials := o.materials ++ [material] }) s
  | none => s

/-- `create_geometry` (lines 42-67).  Branch on `type`: `icosahedron` adds
an ico sphere with the given subdivision count; `torus` a default torus;
`cube` a cube plus a `Subsurf` modifier at `subdivisions` levels; `sphere`
a default UV sphere; any other value adds nothing.  `obj` is then read from
the active-object pointer, the wireframe step runs, and the material is
attached when `obj` is not `None`.  The result is the returned `obj`
(or the uncaught exception) together with the scene state. -/
def create_geometry (params : GeometrySpec) (material : Material)
    (s : BState) : Except PyError (Option Nat) × BState :=
  let s :=
    if params.type = "icosahedron" then
      (addObj (mkObj (ObjKind.icoSphere (some params.subdivisions) none)
        (0, 0, 0)) s).2
    else if params.type = "torus" then
      (addObj (mkObj ObjKind.torus (0, 0, 0)) s).2
    else if params.type = "cube" then
      let s := (addObj (mkObj ObjKind.cube (0, 0, 0)) s).2
      modifyActive
        (fun o =>
          { o with modifiers :=
              o.modifiers ++ [Modifier.subsurf "Subsurf" params.subdivisions] })
        s
    else if params.type = "sphere" then
      (addObj (mkObj ObjKind.uvSphere (0, 0, 0)) s).2
    else s
  let obj := s.active
  match wireframeStep params.wireframe obj s with
  | Except.error e => (Except.error e, s)
  | Except.ok s2 => (Except.ok obj, attachMaterial obj material s2)

/-- `setup_lighting` (lines 69-85): area key light at (5,5,5) with energy
500; point fill light at (-5,-5,2) with energy 200 and a blueish color;
spot rim light at (0,5,-5) with energy 1000, pitched by 135 degrees. -/
def setup_lighting (s : BState) : BState :=
  let s := (addObj (mkObj ObjKind.lightArea (5, 5, 5)) s).2
  let s := modifyActive (fun o => { o with energy := some 500 }) s
  let s := (addObj (mkObj ObjKind.lightPoint (-5, -5, 2)) s).2
  let s := modifyActive (fun o => { o with energy := some 200 }) s
  let s := modifyActive
    (fun o => { o with lightColor := some (0, fillGreen, 1) }) s
  let s := (addObj (mkObj ObjKind.lightSpot (0, 5, -5)) s).2
  let s := modifyActive (fun o => { o with energy := some 1000 }) s
  modifyActive
    (fun o => { o with rotation_euler := (radians 135, ⟨0⟩, ⟨0⟩) }) s

/-- `setup_camera` (lines 87-91): camera at (0,-8,4), pitched 60 degrees,
registered as the scene camera. -/
def setup_camera (s : BState) : BState :=
  let s := (addObj (mkObj ObjKind.camera (0, -8, 4)) s).2
  let s := modifyActive
    (fun o => { o with rotation_euler := (radians 60, ⟨0⟩, ⟨0⟩) }) s
  { s with sceneCamera := s.active }

/-- `create_particles` (lines 93-124): a size-10 plane emitter hidden from
render, carrying a static particle system with `particleCount` particles on
a single frame with no physics; a small ico-sphere prototype, also hidden,
with a bare emission material at the particle color and strength 10; the
particle system then instances the prototype. -/
def create_particles (params : EnvironmentSpec) (s : BState) : BState :=
  let (emitter, s) := addObj (mkObj (ObjKind.plane 10) (0, 0, 0)) s
  let s := modifyObj emitter (fun o => { o with hide_render := true }) s
  let psys : ParticleSettings :=
    { count := params.particleCount, frame_start := 1, frame_end := 1,
      lifetime := 100, physics_type := "NO", render_type := none,
      instance_object := none }
  let s := modifyObj emitter
    (fun o =>
      { o with modifiers :=
          o.modifiers ++ [Modifier.particleSystem "Particles" psys] }) s
  let (proto, s) :=
    addObj (mkObj (ObjKind.icoSphere none (some protoRadius)) (0, 0, 0)) s
  let s := modifyObj proto (fun o => { o with hide_render := true }) s
  let pmat : Material :=
    { name := "ParticleMat",
      graph := ShaderGraph.emission
        (params.particleColor.1, params.particleColor.2.1,
         params.particleColor.2.2, 1) 10 }
  let s := { s with materialsData := s.materialsData ++ [pmat] }
  let s := modifyObj proto
    (fun o => { o with materials := o.materials ++ [pmat] }) s
  modifyObj emitter
    (fun o =>
      { o with modifiers := o.modifiers.map (fun m =>
          match m with
          | Modifier.particleSystem n st =>
            Modifier.particleSystem n
              { st with render_type := some "OBJECT",
                        instance_object := some proto }
          | m => m) }) s

/-- Render configuration assigned by `main` (lines 166-171). -/
def setRenderConfig (s : BState) : BState :=
  { s with render :=
      { engine := some "CYCLES", cyclesSamples := some 32,
        resolution_x := some 1024, resolution_y := some 1024,
        film_transparent := some true } }

/-- The tail of `main` after the geometry / transform steps (lines
161-171): lighting, camera, environment access (a missing `environment`
key raises here), the particle build, render configuration. -/
def finishCompose (params : AvatarParams) (s : BState) :
    Except (PyError × BState) BState :=
  let s := setup_lighting s
  let s := setup_camera s
  match params.environment with
  | none => Except.error (PyError.keyError "environment", s)
  | some espec => Except.ok (setRenderConfig (create_particles espec s))

/-- The scene-building body of `main` (lines 149-171): clean the scene,
synthesize and register the material (`params['material']` raises
`KeyError` when missing), build the geometry, apply the transform to the
returned object when it exists (`params['transform']` is only read inside
`if obj:`), then `finishCompose`.  An error carries the partially mutated
scene state at the raise point. -/
def composeBody (params : AvatarParams) (s0 : BState) :
    Except (PyError × BState) BState :=
  let s := clean_scene s0
  match params.material with
  | none => Except.error (PyError.keyError "material", s)
  | some mspec =>
    let (mat, s) := create_material mspec s
    match params.geometry with
    | none => Except.error (PyError.keyError "geometry", s)
    | some gspec =>
      match create_geometry gspec mat s with
      | (Except.error e, s) => Except.error (e, s)
      | (Except.ok obj, s) =>
        match obj with
        | some i =>
          match params.transform with
          | none => Except.error (PyError.keyError "transform", s)
          | some tspec =>
            let s := modifyObj i
              (fun o =>
                { o with
                    rotation_euler :=
                      (radians tspec.rotation.1, radians tspec.rotation.2.1,
                       radians tspec.rotation.2.2),
                    scale := (tspec.scale, tspec.scale, tspec.scale) }) s
            finishCompose params s
        | none => finishCompose params s

/-- The JSON payload handed to `json.loads`: either malformed (the parser
raises `json.JSONDecodeError`, caught at lines 144-146) or a parsed
parameter document. -/
inductive JsonInput where
  | malformed
  | parsed (params : AvatarParams)
deriving DecidableEq

/-- The observable outcome of one process run: exit status, final engine
state, the persisted file (path and scene snapshot) when
`bpy.ops.wm.save_as_mainfile` ran, and diagnostic prints. -/
structure MainResult where
  exitCode : Nat
  finalState : BState
  saved : Option (String × BState)
  printed : List String
deriving DecidableEq

/-- `main` (lines 126-177).  Without a `"--"` separator in `argv` it
prints and returns normally (exit 0, scene untouched, nothing saved).
A malformed payload prints "Invalid JSON params" and exits 1 before any
scene mutation.  Otherwise `composeBody` runs: an uncaught exception
terminates the process with a nonzero status and nothing saved; on success
the scene is persisted to the output path and the process exits 0. -/
def pymain (argv : List String) (output : String) (payload : JsonInput)
    (s0 : BState) : MainResult :=
  match argv.contains "--" with
  | false =>
    { exitCode := 0, finalState := s0, saved := none,
      printed := ["No arguments passed after --"] }
  | true =>
    match payload with
    | JsonInput.malformed =>
      { exitCode := 1, finalState := s0, saved := none,
        printed := ["Invalid JSON params"] }
    | JsonInput.parsed params =>
      match composeBody params s0 with
      | Except.error (_, s) =>
        { exitCode := 1, finalState := s, saved := none, printed := [] }
      | Except.ok s =>
        { exitCode := 0, finalState := s, saved := some (output, s),
          printed := [] }

/-! ### Derived scene descriptions and observation helpers -/

/-- The key light as `setup_lighting` leaves it. -/
def keyLight : Obj := { mkObj ObjKind.lightArea (5, 5, 5) with energy := some 500 }

/-- The fill light as `setup_lighting` leaves it. -/
def fillLight : Obj :=
  { mkObj ObjKind.lightPoint (-5, -5, 2) with
      energy := some 200, lightColor := some (0, fillGreen, 1) }

/-- The rim light as `setup_lighting` leaves it. -/
def rimLight : Obj :=
  { mkObj ObjKind.lightSpot (0, 5, -5) with
      energy := some 1000, rotation_euler := (radians 135, ⟨0⟩, ⟨0⟩) }

/-- The camera as `setup_camera` leaves it. -/
def fixedCamera : Obj :=
  { mkObj ObjKind.camera (0, -8, 4) with
      rotation_euler := (radians 60, ⟨0⟩, ⟨0⟩) }

/-- The emissive particle material built by `create_particles`. -/
def particleMaterial (espec : EnvironmentSpec) : Material :=
  { name := "ParticleMat",
    graph := ShaderGraph.emission
      (espec.particleColor.1, espec.particleColor.2.1,
       espec.particleColor.2.2, 1) 10 }

/-- The emitter plane as `create_particles` leaves it, instancing the
prototype object at index `proto`. -/
def emitterPlane (espec : EnvironmentSpec) (proto : Nat) : Obj :=
  { mkObj (ObjKind.plane 10) (0, 0, 0) with
      hide_render := true,
      modifiers := [Modifier.particleSystem "Particles"
        { count := espec.particleCount, frame_start := 1, frame_end := 1,
          lifetime := 100, physics_type := "NO",
          render_type := some "OBJECT", instance_object := some proto }] }

/-- The particle prototype ico sphere as `create_particles` leaves it. -/
def protoSphere (espec : EnvironmentSpec) : Obj :=
  { mkObj (ObjKind.icoSphere none (some protoRadius)) (0, 0, 0) with
      hide_render := true, materials := [particleMaterial espec] }

/-- The render configuration `main` assigns. -/
def cyclesRender : RenderSettings :=
  { engine := some "CYCLES", cyclesSamples := some 32,
    resolution_x := some 1024, resolution_y := some 1024,
    film_transparent := some true }

/-- The scene `composeBody` produces when the geometry type matches no
primitive and `wireframe` is off: the three lights, the camera, the
particle environment, the render configuration --- and no avatar object;
the avatar material is registered but attached to nothing. -/
def avatarlessScene (mspec : MaterialSpec) (espec : EnvironmentSpec)
    (s0 : BState) : BState :=
  { objects := [keyLight, fillLight, rimLight, fixedCamera,
                emitterPlane espec 5, protoSphere espec],
    materialsData :=
      s0.materialsData ++ [buildAvatarMaterial mspec] ++ [particleMaterial espec],
    active := some 5, sceneCamera := some 3, render := cyclesRender }

/-- Whether an object is one of the three rig lights. -/
def isLight (o : Obj) : Bool :=
  match o.kind with
  | ObjKind.lightArea => true
  | ObjKind.lightPoint => true
  | ObjKind.lightSpot => true
  | _ => false

/-- Number of lights in the scene. -/
def lightCount (s : BState) : Nat := (s.objects.filter isLight).length

/-- Whether a modifier is a particle system. -/
def isParticleSystemMod (m : Modifier) : Bool :=
  match m with
  | Modifier.particleSystem _ _ => true
  | _ => false

/-- Number of objects carrying a particle system. -/
def particleSystemCount (s : BState) : Nat :=
  (s.objects.filter (fun o => o.modifiers.any isParticleSystemMod)).length

/-- Whether an object is an avatar body built by `create_geometry`: a
torus, cube, UV sphere, or an ico sphere with an explicit subdivision
count (the particle prototype's ico sphere uses the engine default). -/
def isAvatarPrimitive (o : Obj) : Bool :=
  match o.kind with
  | ObjKind.icoSphere (some _) _ => true
  | ObjKind.torus => true
  | ObjKind.cube => true
  | ObjKind.uvSphere => true
  | _ => false

/-- The kinds of the scene's objects, in creation order. -/
def sceneKinds (s : BState) : List ObjKind := s.objects.map Obj.kind

/-- The modifier stack of the object at index `i` (empty if absent). -/
def objModifiers (s : BState) (i : Nat) : List Modifier :=
  ((s.objects.get? i).map Obj.modifiers).getD []

/-- The levels of the subdivision-surface modifiers on a stack. -/
def subsurfLevels (ms : List Modifier) : List Nat :=
  ms.filterMap (fun m =>
    match m with
    | Modifier.subsurf _ lv => some lv
    | _ => none)

/-! ### Theorems -/

/-- Sanity check: `wireframeThickness` is the literal `0.02` of line 62. -/
theorem wireframeThickness_eq : wireframeThickness = 1 / 50 := by
  rw [wireframeThickness, Rat.mk'_eq_divInt, Rat.divInt_eq_div]
  norm_num

/-- Sanity check: `protoRadius` is the literal `0.1` of line 107. -/
theorem protoRadius_eq : protoRadius = 1 / 10 := by
  rw [protoRadius, Rat.mk'_eq_divInt, Rat.divInt_eq_div]
  norm_num

/-- Sanity check: `fillGreen` is the literal `0.5` of line 79. -/
theorem fillGreen_eq : fillGreen = 1 / 2 := by
  rw [fillGreen, Rat.mk'_eq_divInt, Rat.divInt_eq_div]
  norm_num

/-- C2: for every invocation whose JSON parameter payload is malformed
(and which reaches the parse, i.e. the argument vector has the `"--"`
separator), the program prints a parse diagnostic and halts with exit
status 1; the scene state is exactly the initial state (no mutation) and
no output file is saved. -/
theorem malformedJson_failsFast (argv : List String) (output : String)
    (s0 : BState) (h : argv.contains "--" = true) :
    pymain argv output JsonInput.malformed s0 =
      { exitCode := 1, finalState := s0, saved := none,
        printed := ["Invalid JSON params"] } := by
  simp only [pymain, h]

theorem malformedJson_failsFast_witness :
    pymain ["blender", "--"] "out.blend" JsonInput.malformed freshState =
      { exitCode := 1, finalState := freshState, saved := none,
        printed := ["Invalid JSON params"] } :=
  malformedJson_failsFast ["blender", "--"] "out.blend" freshState (by decide)

/-- C3: for every material specification of type `"glass"`, the
synthesized shader description has transmission set to 1.0 and roughness
forced to 0.0, whatever roughness the input carries. -/
theorem glass_overrides_roughness (p : MaterialSpec) (s : BState)
    (h : p.type = "glass") :
    (create_material p s).1 =
      { name := "AvatarMaterial",
        graph := ShaderGraph.principled
          ⟨p.color, 0, none, some 1, none, none⟩ } := by
  simp [create_material, buildAvatarMaterial, h]

theorem glass_overrides_roughness_witness :
    (create_material ⟨(0, 0, 1, 1), 1, "glass"⟩ freshState).1 =
      { name := "AvatarMaterial",
        graph := ShaderGraph.principled
          ⟨(0, 0, 1, 1), 0, none, some 1, none, none⟩ } :=
  glass_overrides_roughness ⟨(0, 0, 1, 1), 1, "glass"⟩ freshState rfl

/-- C8: for every material specification whose type is not `metallic`,
`glass` or `emissive` (including `"default"` and arbitrary unrecognized
values), `create_material` raises no error (it is a total function in the
model) and yields the plain principled shader: base color and roughness
from the input, and no metallic, transmission or emission inputs set. -/
theorem unrecognizedMaterialType_plain (p : MaterialSpec) (s : BState)
    (h : p.type ∉ ["metallic", "glass", "emissive"]) :
    (create_material p s).1 =
      { name := "AvatarMaterial",
        graph := ShaderGraph.principled
          ⟨p.color, p.roughness, none, none, none, none⟩ } := by
  simp only [List.mem_cons, List.not_mem_nil, or_false, not_or] at h
  obtain ⟨h1, h2, h3⟩ := h
  simp [create_material, buildAvatarMaterial, h1, h2, h3]

theorem unrecognizedMaterialType_plain_witness :
    (create_material ⟨(1, 1, 0, 1), 1, "default"⟩ freshState).1 =
      { name := "AvatarMaterial",
        graph := ShaderGraph.principled
          ⟨(1, 1, 0, 1), 1, none, none, none, none⟩ } :=
  unrecognizedMaterialType_plain ⟨(1, 1, 0, 1), 1, "default"⟩ freshState
    (by decide)

/-- C9: if the process argument vector has no `"--"` separator, `main`
prints a message and returns normally: exit status 0 (not the nonzero
status of configuration failures), no scene operation (the state is the
initial state), and no output file. -/
theorem noSeparator_returnsNormally (argv : List String) (output : String)
    (payload : JsonInput) (s0 : BState) (h : argv.contains "--" = false) :
    pymain argv output payload s0 =
      { exitCode := 0, finalState := s0, saved := none,
        printed := ["No arguments passed after --"] } := by
  simp only [pymain, h]

theorem noSeparator_returnsNormally_witness :
    pymain ["blender", "-b"] "out.blend" JsonInput.malformed freshState =
      { exitCode := 0, finalState := freshState, saved := none,
        printed := ["No arguments passed after --"] } :=
  noSeparator_returnsNormally ["blender", "-b"] "out.blend"
    JsonInput.malformed freshState (by decide)

/-- C7: the pipeline is deterministic.  `pymain` is a pure function of the
argument vector, payload and initial engine state; in particular two
invocations on the same parsed spec and the same startup state but any two
output paths produce identical saved scene content, identical final engine
state and identical exit status.  (The `random` import of line 6 is never
used: no step of the model consults randomness.) -/
theorem pipeline_deterministic (argv : List String) (out1 out2 : String)
    (payload : JsonInput) (s0 : BState) :
    (pymain argv out1 payload s0).saved.map Prod.snd =
      (pymain argv out2 payload s0).saved.map Prod.snd ∧
    (pymain argv out1 payload s0).finalState =
      (pymain argv out2 payload s0).finalState ∧
    (pymain argv out1 payload s0).exitCode =
      (pymain argv out2 payload s0).exitCode := by
  cases hq : argv.contains "--" with
  | false => simp only [pymain, hq]; trivial
  | true =>
    cases payload with
    | malformed => simp only [pymain, hq]; trivial
    | parsed params =>
      cases hb : composeBody params s0 with
      | error es => simp only [pymain, hq, hb]; trivial
      | ok s => simp only [pymain, hq, hb]; trivial

/-- C6: the three subdivision mechanisms of `create_geometry`, on the
post-`clean_scene` engine state (no objects, no active object): a cube is
a base cube plus a `Subsurf` modifier whose level equals `subdivisions`;
an icosahedron carries its subdivision count directly on the primitive and
gets no subdivision modifier; for torus and sphere the `subdivisions`
value is ignored (two specs differing only there build identical results). -/
theorem subdivision_mechanisms (mat : Material) (s : BState) (n a b : Nat)
    (wf : Bool) (hobj : s.objects = []) (hact : s.active = none) :
    (sceneKinds (create_geometry ⟨"cube", n, wf⟩ mat s).2 = [ObjKind.cube] ∧
      subsurfLevels (objModifiers (create_geometry ⟨"cube", n, wf⟩ mat s).2 0) = [n]) ∧
    (sceneKinds (create_geometry ⟨"icosahedron", n, wf⟩ mat s).2 =
        [ObjKind.icoSphere (some n) none] ∧
      subsurfLevels (objModifiers (create_geometry ⟨"icosahedron", n, wf⟩ mat s).2 0) = []) ∧
    create_geometry ⟨"torus", a, wf⟩ mat s = create_geometry ⟨"torus", b, wf⟩ mat s ∧
    create_geometry ⟨"sphere", a, wf⟩ mat s = create_geometry ⟨"sphere", b, wf⟩ mat s := by
  obtain ⟨objs, md, act, cam, rnd⟩ := s
  dsimp only at hobj hact
  subst hobj hact
  cases wf <;>
    simp [create_geometry, addObj, modifyActive, modifyObj, listModify,
      wireframeStep, attachMaterial, mkObj, sceneKinds, objModifiers,
      subsurfLevels]

theorem subdivision_mechanisms_witness :
    (sceneKinds (create_geometry ⟨"cube", 3, false⟩
        (buildAvatarMaterial ⟨(1, 0, 0, 1), 1, "metallic"⟩) freshState).2 =
          [ObjKind.cube] ∧
      subsurfLevels (objModifiers (create_geometry ⟨"cube", 3, false⟩
        (buildAvatarMaterial ⟨(1, 0, 0, 1), 1, "metallic"⟩) freshState).2 0) = [3]) ∧
    (sceneKinds (create_geometry ⟨"icosahedron", 3, false⟩
        (buildAvatarMaterial ⟨(1, 0, 0, 1), 1, "metallic"⟩) freshState).2 =
          [ObjKind.icoSphere (some 3) none] ∧
      subsurfLevels (objModifiers (create_geometry ⟨"icosahedron", 3, false⟩
        (buildAvatarMaterial ⟨(1, 0, 0, 1), 1, "metallic"⟩) freshState).2 0) = []) ∧
    create_geometry ⟨"torus", 3, false⟩
        (buildAvatarMaterial ⟨(1, 0, 0, 1), 1, "metallic"⟩) freshState =
      create_geometry ⟨"torus", 7, false⟩
        (buildAvatarMaterial ⟨(1, 0, 0, 1), 1, "metallic"⟩) freshState ∧
    create_geometry ⟨"sphere", 3, false⟩
        (buildAvatarMaterial ⟨(1, 0, 0, 1), 1, "metallic"⟩) freshState =
      create_geometry ⟨"sphere", 7, false⟩
        (buildAvatarMaterial ⟨(1, 0, 0, 1), 1, "metallic"⟩) freshState :=
  subdivision_mechanisms (buildAvatarMaterial ⟨(1, 0, 0, 1), 1, "metallic"⟩)
    freshState 3 3 7 false rfl rfl

/-- C4 (the claim as stated is false, see
`wireframe_unknownType_errors_cex`): when `wireframe` is true, the claim
holds for the four recognized primitive types: the built object exists and
its modifier stack ends with a wireframe modifier of thickness 0.02. -/
theorem wireframe_appended_on_recognized (g : GeometrySpec) (mat : Material)
    (s : BState) (hobj : s.objects = []) (hact : s.active = none)
    (hwf : g.wireframe = true)
    (hty : g.type ∈ ["icosahedron", "torus", "cube", "sphere"]) :
    (create_geometry g mat s).1 = Except.ok (some 0) ∧
    (objModifiers (create_geometry g mat s).2 0).getLast? =
      some (Modifier.wireframe "Wireframe" wireframeThickness) := by
  obtain ⟨objs, md, act, cam, rnd⟩ := s
  obtain ⟨gty, gsub, gwf⟩ := g
  dsimp only at hobj hact hwf hty
  subst hobj hact hwf
  simp only [List.mem_cons, List.not_mem_nil, or_false] at hty
  rcases hty with h | h | h | h <;> subst h <;>
    simp [create_geometry, addObj, modifyActive, modifyObj, listModify,
      wireframeStep, attachMaterial, mkObj, objModifiers]

theorem wireframe_appended_on_recognized_witness :
    (create_geometry ⟨"cube", 1, true⟩
      (buildAvatarMaterial ⟨(1, 0, 0, 1), 1, "metallic"⟩) freshState).1 =
        Except.ok (some 0) ∧
    (objModifiers (create_geometry ⟨"cube", 1, true⟩
      (buildAvatarMaterial ⟨(1, 0, 0, 1), 1, "metallic"⟩) freshState).2 0).getLast? =
        some (Modifier.wireframe "Wireframe" wireframeThickness) :=
  wireframe_appended_on_recognized ⟨"cube", 1, true⟩
    (buildAvatarMaterial ⟨(1, 0, 0, 1), 1, "metallic"⟩) freshState rfl rfl rfl
    (by decide)

/-- C4, counterexample to the claim as stated: for a geometry spec with
`wireframe = true` but an unrecognized type (`"cone"`), no object exists,
and `create_geometry` raises `AttributeError` on `None.modifiers` instead
of appending a wireframe modifier: the scene stays empty. -/
theorem wireframe_unknownType_errors_cex :
    (create_geometry ⟨"cone", 0, true⟩
      (buildAvatarMaterial ⟨(1, 0, 0, 1), 1, "metallic"⟩) freshState).1 =
        Except.error (PyError.attributeErrorNone "modifiers") ∧
    (create_geometry ⟨"cone", 0, true⟩
      (buildAvatarMaterial ⟨(1, 0, 0, 1), 1, "metallic"⟩) freshState).2.objects =
        [] :=
  ⟨rfl, rfl⟩

set_option maxHeartbeats 1000000 in
/-- Helper: on a spec whose geometry type matches no primitive and whose
`wireframe` flag is off, `composeBody` succeeds and produces exactly the
avatar-less scene. -/
theorem composeBody_unknownGeometry (mspec : MaterialSpec)
    (gspec : GeometrySpec) (tr : Option TransformSpec)
    (espec : EnvironmentSpec) (s0 : BState)
    (h1 : gspec.type ≠ "icosahedron") (h2 : gspec.type ≠ "torus")
    (h3 : gspec.type ≠ "cube") (h4 : gspec.type ≠ "sphere")
    (hwf : gspec.wireframe = false) :
    composeBody ⟨some mspec, some gspec, tr, some espec⟩ s0 =
      Except.ok (avatarlessScene mspec espec s0) := by
  obtain ⟨gty, gsub, gwf⟩ := gspec
  dsimp only at h1 h2 h3 h4 hwf
  subst hwf
  simp only [composeBody, clean_scene, create_material, create_geometry,
    if_neg h1, if_neg h2, if_neg h3, if_neg h4]
  rfl

/-- C1 (amended: the builder must also not be asked for a wireframe, see
`unknownGeometry_wireframe_aborts_cex`): for every avatar spec whose
geometry type is not one of icosahedron, torus, cube, sphere and whose
`wireframe` flag is false, the pipeline completes with exit status 0 and
persists to the output path a scene with the three-light rig, the camera,
the particle environment, and no avatar body. -/
theorem unknownGeometry_noWireframe_completes
    (argv : List String) (output : String) (s0 : BState)
    (params : AvatarParams) (mspec : MaterialSpec) (gspec : GeometrySpec)
    (espec : EnvironmentSpec)
    (hargv : argv.contains "--" = true)
    (hm : params.material = some mspec) (hg : params.geometry = some gspec)
    (he : params.environment = some espec)
    (hty : gspec.type ∉ ["icosahedron", "torus", "cube", "sphere"])
    (hwf : gspec.wireframe = false) :
    (pymain argv output (JsonInput.parsed params) s0).exitCode = 0 ∧
    (pymain argv output (JsonInput.parsed params) s0).saved =
      some (output, avatarlessScene mspec espec s0) ∧
    lightCount (avatarlessScene mspec espec s0) = 3 ∧
    (avatarlessScene mspec espec s0).sceneCamera = some 3 ∧
    particleSystemCount (avatarlessScene mspec espec s0) = 1 ∧
    (avatarlessScene mspec espec s0).objects.all
      (fun o => !(isAvatarPrimitive o)) = true := by
  obtain ⟨pm, pg, pt, pe⟩ := params
  dsimp only at hm hg he
  subst hm hg he
  simp only [List.mem_cons, List.not_mem_nil, or_false, not_or] at hty
  obtain ⟨h1, h2, h3, h4⟩ := hty
  have hcb := composeBody_unknownGeometry mspec gspec pt espec s0 h1 h2 h3 h4 hwf
  refine ⟨?_, ?_, ?_, ?_, ?_, ?_⟩
  · simp only [pymain, hargv, hcb]
  · simp only [pymain, hargv, hcb]
  · rfl
  · rfl
  · rfl
  · rfl

theorem unknownGeometry_noWireframe_completes_witness :
    (pymain ["--"] "out.blend"
      (JsonInput.parsed ⟨some ⟨(1, 0, 0, 1), 1, "metallic"⟩,
        some ⟨"blob", 4, false⟩, some ⟨(0, 0, 0), 2⟩, some ⟨50, (0, 1, 1)⟩⟩)
      freshState).exitCode = 0 ∧
    (pymain ["--"] "out.blend"
      (JsonInput.parsed ⟨some ⟨(1, 0, 0, 1), 1, "metallic"⟩,
        some ⟨"blob", 4, false⟩, some ⟨(0, 0, 0), 2⟩, some ⟨50, (0, 1, 1)⟩⟩)
      freshState).saved =
      some ("out.blend",
        avatarlessScene ⟨(1, 0, 0, 1), 1, "metallic"⟩ ⟨50, (0, 1, 1)⟩
          freshState) ∧
    lightCount (avatarlessScene ⟨(1, 0, 0, 1), 1, "metallic"⟩ ⟨50, (0, 1, 1)⟩
      freshState) = 3 ∧
    (avatarlessScene ⟨(1, 0, 0, 1), 1, "metallic"⟩ ⟨50, (0, 1, 1)⟩
      freshState).sceneCamera = some 3 ∧
    particleSystemCount (avatarlessScene ⟨(1, 0, 0, 1), 1, "metallic"⟩
      ⟨50, (0, 1, 1)⟩ freshState) = 1 ∧
    (avatarlessScene ⟨(1, 0, 0, 1), 1, "metallic"⟩ ⟨50, (0, 1, 1)⟩
      freshState).objects.all (fun o => !(isAvatarPrimitive o)) = true :=
  unknownGeometry_noWireframe_completes ["--"] "out.blend" freshState
    ⟨some ⟨(1, 0, 0, 1), 1, "metallic"⟩, some ⟨"blob", 4, false⟩,
      some ⟨(0, 0, 0), 2⟩, some ⟨50, (0, 1, 1)⟩⟩
    ⟨(1, 0, 0, 1), 1, "metallic"⟩ ⟨"blob", 4, false⟩ ⟨50, (0, 1, 1)⟩
    (by decide) rfl rfl rfl (by decide) rfl

/-- C1, counterexample to the claim as stated: on an avatar spec with all
four sub-records present, unrecognized geometry type `"pyramid"` and
`wireframe = true`, the pipeline does not complete: the uncaught
`AttributeError` aborts the run with a nonzero status and nothing is
persisted, although the claim promises a persisted scene. -/
theorem unknownGeometry_wireframe_aborts_cex :
    (pymain ["--"] "out.blend"
      (JsonInput.parsed ⟨some ⟨(1, 0, 0, 1), 1, "metallic"⟩,
        some ⟨"pyramid", 2, true⟩, some ⟨(0, 0, 0), 2⟩, some ⟨50, (0, 1, 1)⟩⟩)
      freshState).exitCode = 1 ∧
    (pymain ["--"] "out.blend"
      (JsonInput.parsed ⟨some ⟨(1, 0, 0, 1), 1, "metallic"⟩,
        some ⟨"pyramid", 2, true⟩, some ⟨(0, 0, 0), 2⟩, some ⟨50, (0, 1, 1)⟩⟩)
      freshState).saved = none := by
  exact ⟨rfl, rfl⟩

/-- C10 (amended: persistence additionally needs `wireframe = false`, see
`material_unattached_not_persisted_cex`): material synthesis precedes
geometry building, so for every avatar spec with all four sub-records,
an unrecognized geometry type and `wireframe = false`, the persisted scene
contains the synthesized avatar material in its material datablocks while
no object of the scene has it attached. -/
theorem material_registered_without_avatar
    (argv : List String) (output : String) (s0 : BState)
    (params : AvatarParams) (mspec : MaterialSpec) (gspec : GeometrySpec)
    (tspec : TransformSpec) (espec : EnvironmentSpec)
    (hargv : argv.contains "--" = true)
    (hm : params.material = some mspec) (hg : params.geometry = some gspec)
    (ht : params.transform = some tspec) (he : params.environment = some espec)
    (hty : gspec.type ∉ ["icosahedron", "torus", "cube", "sphere"])
    (hwf : gspec.wireframe = false) :
    (pymain argv output (JsonInput.parsed params) s0).saved =
      some (output, avatarlessScene mspec espec s0) ∧
    buildAvatarMaterial mspec ∈ (avatarlessScene mspec espec s0).materialsData ∧
    ∀ o ∈ (avatarlessScene mspec espec s0).objects,
      buildAvatarMaterial mspec ∉ o.materials := by
  obtain ⟨pm, pg, pt, pe⟩ := params
  dsimp only at hm hg ht he
  subst hm hg ht he
  simp only [List.mem_cons, List.not_mem_nil, or_false, not_or] at hty
  obtain ⟨h1, h2, h3, h4⟩ := hty
  have hcb := composeBody_unknownGeometry mspec gspec (some tspec) espec s0
    h1 h2 h3 h4 hwf
  refine ⟨?_, ?_, ?_⟩
  · simp only [pymain, hargv, hcb]
  · simp [avatarlessScene]
  · intro o ho
    simp only [avatarlessScene, List.mem_cons, List.not_mem_nil, or_false]
      at ho
    rcases ho with rfl | rfl | rfl | rfl | rfl | rfl <;>
      simp [keyLight, fillLight, rimLight, fixedCamera, emitterPlane,
        protoSphere, mkObj, particleMaterial, buildAvatarMaterial,
        Material.mk.injEq]

/-- C10, counterexample to the claim as stated: with the four sub-records
present, unrecognized geometry type `"wedge"` and `wireframe = true`, the
avatar material IS synthesized and registered before geometry building,
but the run aborts and no scene is persisted, so no persisted scene
containing the unattached material exists. -/
theorem material_unattached_not_persisted_cex :
    (pymain ["--"] "out.blend"
      (JsonInput.parsed ⟨some ⟨(1, 0, 0, 1), 1, "metallic"⟩,
        some ⟨"wedge", 0, true⟩, some ⟨(0, 0, 0), 2⟩, some ⟨50, (0, 1, 1)⟩⟩)
      freshState).saved = none ∧
    buildAvatarMaterial ⟨(1, 0, 0, 1), 1, "metallic"⟩ ∈
      (pymain ["--"] "out.blend"
        (JsonInput.parsed ⟨some ⟨(1, 0, 0, 1), 1, "metallic"⟩,
          some ⟨"wedge", 0, true⟩, some ⟨(0, 0, 0), 2⟩, some ⟨50, (0, 1, 1)⟩⟩)
        freshState).finalState.materialsData := by
  exact ⟨rfl, by decide⟩

theorem material_registered_without_avatar_witness :
    (pymain ["--"] "out.blend"
      (JsonInput.parsed ⟨some ⟨(0, 1, 0, 1), 0, "emissive"⟩,
        some ⟨"blobby", 1, false⟩, some ⟨(0, 0, 0), 1⟩, some ⟨9, (1, 0, 0)⟩⟩)
      freshState).saved =
      some ("out.blend",
        avatarlessScene ⟨(0, 1, 0, 1), 0, "emissive"⟩ ⟨9, (1, 0, 0)⟩
          freshState) ∧
    buildAvatarMaterial ⟨(0, 1, 0, 1), 0, "emissive"⟩ ∈
      (avatarlessScene ⟨(0, 1, 0, 1), 0, "emissive"⟩ ⟨9, (1, 0, 0)⟩
        freshState).materialsData ∧
    ∀ o ∈ (avatarlessScene ⟨(0, 1, 0, 1), 0, "emissive"⟩ ⟨9, (1, 0, 0)⟩
        freshState).objects,
      buildAvatarMaterial ⟨(0, 1, 0, 1), 0, "emissive"⟩ ∉ o.materials :=
  material_registered_without_avatar ["--"] "out.blend" freshState
    ⟨some ⟨(0, 1, 0, 1), 0, "emissive"⟩, some ⟨"blobby", 1, false⟩,
      some ⟨(0, 0, 0), 1⟩, some ⟨9, (1, 0, 0)⟩⟩
    ⟨(0, 1, 0, 1), 0, "emissive"⟩ ⟨"blobby", 1, false⟩ ⟨(0, 0, 0), 1⟩
    ⟨9, (1, 0, 0)⟩ (by decide) rfl rfl rfl rfl (by decide) rfl

/-- Helper: with the `environment` sub-record missing, `composeBody`
always raises (at latest at the `params['environment']` access). -/
theorem composeBody_env_none (pm : Option MaterialSpec)
    (pg : Option GeometrySpec) (pt : Option TransformSpec) (s0 : BState) :
    ∃ e s', composeBody ⟨pm, pg, pt, none⟩ s0 = Except.error (e, s') := by
  cases pm with
  | none => exact ⟨_, _, rfl⟩
  | some m =>
    cases pg with
    | none => exact ⟨_, _, rfl⟩
    | some g =>
      simp only [composeBody, clean_scene, create_material]
      split
      · exact ⟨_, _, rfl⟩
      · rename_i obj s heq
        cases obj <;> cases pt <;> exact ⟨_, _, rfl⟩

/-- Helper: with the `transform` sub-record missing but a recognized
geometry type, the geometry build returns an object, so the
`params['transform']` access raises. -/
theorem composeBody_missing_transform (m : MaterialSpec) (g : GeometrySpec)
    (pe : Option EnvironmentSpec) (s0 : BState)
    (hty : g.type ∈ ["icosahedron", "torus", "cube", "sphere"]) :
    ∃ e s', composeBody ⟨some m, some g, none, pe⟩ s0 =
      Except.error (e, s') := by
  obtain ⟨gty, gsub, gwf⟩ := g
  simp only [List.mem_cons, List.not_mem_nil, or_false] at hty
  rcases hty with h | h | h | h <;> subst h <;>
    cases gwf <;> exact ⟨_, _, rfl⟩

/-- C5 (amended: a missing `transform` is only fatal when the geometry
build produced an object, i.e. for a recognized geometry type, see
`missing_transform_unnoticed_cex`): a spec missing `material`, `geometry`
or `environment` always halts the process with a nonzero status and no
output file; a spec missing `transform` does so provided its geometry type
is one of the four recognized primitives. -/
theorem missing_required_field_fatal
    (params : AvatarParams) (argv : List String) (output : String)
    (s0 : BState) (hargv : argv.contains "--" = true)
    (h : params.material = none ∨ params.geometry = none ∨
         params.environment = none ∨
         (params.transform = none ∧ ∃ g, params.geometry = some g ∧
            g.type ∈ ["icosahedron", "torus", "cube", "sphere"])) :
    (pymain argv output (JsonInput.parsed params) s0).exitCode = 1 ∧
    (pymain argv output (JsonInput.parsed params) s0).saved = none := by
  obtain ⟨pm, pg, pt, pe⟩ := params
  dsimp only at h
  have key : ∃ e s', composeBody ⟨pm, pg, pt, pe⟩ s0 =
      Except.error (e, s') := by
    rcases h with hm | hg | he | ⟨ht, g, hg, hty⟩
    · subst hm; exact ⟨_, _, rfl⟩
    · subst hg
      cases pm with
      | none => exact ⟨_, _, rfl⟩
      | some m => exact ⟨_, _, rfl⟩
    · subst he; exact composeBody_env_none pm pg pt s0
    · subst ht; subst hg
      cases pm with
      | none => exact ⟨_, _, rfl⟩
      | some m => exact composeBody_missing_transform m g pe s0 hty
  obtain ⟨e, s', hk⟩ := key
  simp only [pymain, hargv, hk]
  exact ⟨by trivial, by trivial⟩

theorem missing_required_field_fatal_witness :
    (pymain ["--"] "out.blend"
      (JsonInput.parsed ⟨none, some ⟨"cube", 1, false⟩, some ⟨(0, 0, 0), 1⟩,
        some ⟨10, (1, 0, 0)⟩⟩) freshState).exitCode = 1 ∧
    (pymain ["--"] "out.blend"
      (JsonInput.parsed ⟨none, some ⟨"cube", 1, false⟩, some ⟨(0, 0, 0), 1⟩,
        some ⟨10, (1, 0, 0)⟩⟩) freshState).saved = none :=
  missing_required_field_fatal
    ⟨none, some ⟨"cube", 1, false⟩, some ⟨(0, 0, 0), 1⟩, some ⟨10, (1, 0, 0)⟩⟩
    ["--"] "out.blend" freshState (by decide) (Or.inl rfl)

/-- C5, counterexample to the claim as stated: a spec missing the
`transform` sub-record but whose geometry type is unrecognized (here
`"prism"`, with `wireframe = false`) is NOT fatal: the `params['transform']`
access sits inside `if obj:` and is never reached, the pipeline completes
with exit status 0 and an output file is produced. -/
theorem missing_transform_unnoticed_cex :
    (pymain ["--"] "out.blend"
      (JsonInput.parsed ⟨some ⟨(1, 0, 0, 1), 1, "metallic"⟩,
        some ⟨"prism", 1, false⟩, none, some ⟨50, (0, 1, 1)⟩⟩)
      freshState).exitCode = 0 ∧
    (pymain ["--"] "out.blend"
      (JsonInput.parsed ⟨some ⟨(1, 0, 0, 1), 1, "metallic"⟩,
        some ⟨"prism", 1, false⟩, none, some ⟨50, (0, 1, 1)⟩⟩)
      freshState).saved.isSome = true := by
  exact ⟨rfl, rfl⟩
